import Mathlib

/-!
# Mechanical Turk MCP — verification of the bridge protocol core

Shallow embedding, translated from the repository source, of:

* the Node-side `BridgeClient` pending-call table (`src/src/bridge/bridge-client.ts`),
* the Godot-side WebSocket dispatcher (`bridge_server.gd`, shipped as an
  unnamed source part: `_handle_message`, `_send_result`, `_send_error`),
* the typed-value codec (`convert_typed_value` in `godot_operations.gd`),
* the Vector2 auto-detection helpers (`godot-types.ts`),
* the parameter-naming normalizer (`normalizeParameters` /
  `convertCamelToSnakeCase`).

Wire data is modelled by `JsValue` (the JSON values Godot's `JSON.parse`
produces; numbers are modelled exactly as rationals, since every operation in
the translated code only stores and compares them and never computes with
them). Godot-native values produced by the codec are modelled by `Variant`.
-/

/-- JSON wire values as produced by a JSON parser: null, booleans, numbers,
strings, arrays and objects (ordered field lists; parsed objects have unique
keys, and every lookup below takes the first match). -/
inductive JsValue where
  | null
  | bool (b : Bool)
  | num (q : Rat)
  | str (s : String)
  | arr (xs : List JsValue)
  | obj (fields : List (String × JsValue))

/-- First-match association lookup on an object's field list; models both
GDScript `Dictionary` indexing and JavaScript property access (keys are
unique in both, so first-match agrees with the host semantics). -/
def JsValue.getField : List (String × JsValue) → String → Option JsValue
  | [], _ => none
  | (k, v) :: rest, key => if k = key then some v else JsValue.getField rest key

/-- GDScript `dict.get(key, default)`. -/
def JsValue.getD (fields : List (String × JsValue)) (key : String) (d : JsValue) : JsValue :=
  (JsValue.getField fields key).getD d

/-! ## Bridge Protocol client (`src/src/bridge/bridge-client.ts`)

The pending-request table `pendingRequests : Map<string, PendingCall>` is the
only mutable state the two handlers below touch, plus the `ws` field (whether
a live open socket is held).  A `PendingCall`'s `resolve`/`reject`/`timer`
triple is modelled by an opaque promise handle (a `Nat`); settling a promise
is recorded as an emitted `ClientEvent` rather than a callback invocation. -/

/-- The error object of a `BridgeResponse` (`bridge-protocol.ts`). -/
structure BridgeError where
  code : Int
  message : String

/-- A decoded `BridgeResponse` frame (`bridge-protocol.ts`): `id`, optional
`result`, optional `error`. -/
structure BridgeResponse where
  id : String
  result : Option JsValue
  error : Option BridgeError

/-- Observable completion of a pending call: its promise handle is resolved
with the response's `result`, or rejected with an error message.  `clearTimeout`
on the call's timer is implicit in the call leaving the table. -/
inductive ClientEvent where
  | resolved (promise : Nat) (value : Option JsValue)
  | rejected (promise : Nat) (message : String)

/-- `BridgeClient` state: whether an open socket is held (`ws !== null` and
ready), and the pending table as an insertion-ordered map `id ↦ promise`. -/
structure ClientState where
  connected : Bool
  pending : List (String × Nat)

/-- `pendingRequests.get(id)` — first (unique) match. -/
def ClientState.lookupPending : List (String × Nat) → String → Option Nat
  | [], _ => none
  | (k, p) :: rest, id => if k = id then some p else ClientState.lookupPending rest id

/-- `pendingRequests.delete(id)`.  A `Map` holds each key once, so removing
every entry with the key equals JavaScript's single-entry delete. -/
def ClientState.deletePending (table : List (String × Nat)) (id : String) : List (String × Nat) :=
  table.filter (fun kv => kv.1 ≠ id)

/-- The event a matched response settles its pending call with: rejection when
the response carries an `error` object (`if (response.error)`), resolution
with `response.result` otherwise. -/
def responseEvent (promise : Nat) (resp : BridgeResponse) : ClientEvent :=
  match resp.error with
  | some e => .rejected promise ("Bridge error: " ++ e.message)
  | none => .resolved promise resp.result

/-- The `ws.on message` handler of `BridgeClient.connect`: look the response's
id up in the pending table; if found, remove the entry (cancelling its timer)
and settle its promise from `result`/`error`; if not found, do nothing. -/
def onMessage (st : ClientState) (resp : BridgeResponse) : ClientState × List ClientEvent :=
  match ClientState.lookupPending st.pending resp.id with
  | some promise =>
      ({ st with pending := ClientState.deletePending st.pending resp.id },
       [responseEvent promise resp])
  | none => (st, [])

/-- The raw message callback: `JSON.parse(data.toString())` may throw, in which
case the catch block only logs and nothing else happens. -/
def onMessageData (st : ClientState) (parsed : Except String BridgeResponse) :
    ClientState × List ClientEvent :=
  match parsed with
  | .error _ => (st, [])
  | .ok resp => onMessage st resp

/-- The `ws.on close` handler of `BridgeClient.connect`: null out `ws`, reject
every pending call with the connection-closed error, and clear the table. -/
def onClose (st : ClientState) : ClientState × List ClientEvent :=
  ({ connected := false, pending := [] },
   st.pending.map (fun kv => ClientEvent.rejected kv.2 "Bridge connection closed"))

/-- The successful completion of a later `connect()`: the `isConnected` guard
returns early only when already connected; otherwise a fresh attempt is made
and its `open` event stores the new socket.  Modelled as the success path of
that attempt. -/
def connectSucceed (st : ClientState) : ClientState :=
  if st.connected then st else { st with connected := true }

/-! ## Typed-value codec (`convert_typed_value` in `godot_operations.gd`)

`convert_typed_value` turns parsed wire JSON into Godot-native values.  The
native side is modelled by `Variant`: the wire scalars, plus one constructor
per registered `_type` tag.  Arrays are *not* walked by the source (only
dictionaries recurse), so a passed-through array keeps its raw wire elements. -/

/-- Godot-native values as produced by the codec.  A `Shape2D` resource is
identified by its class and its relevant properties (the ones the codec sets);
property defaults below are the engine's construction defaults.  A loaded
`Resource` is identified by its `resource_path`. -/
inductive Variant where
  | vnull
  | vbool (b : Bool)
  | vnum (q : Rat)
  | vstr (s : String)
  | varr (xs : List JsValue)
  | vdict (fields : List (String × Variant))
  | vec2 (x y : Rat)
  | vec2i (x y : Int)
  | vec3 (x y z : Rat)
  | vec3i (x y z : Int)
  | color (r g b a : Rat)
  | rect2 (x y w h : Rat)
  | nodePath (p : String)
  | resource (path : String)
  | rectangleShape (size : Rat × Rat)
  | circleShape (radius : Rat)
  | capsuleShape (radius height : Rat)
  | worldBoundaryShape (normal : Rat × Rat) (distance : Rat)
  | segmentShape (a b : Rat × Rat)
  | convexPolygonShape (points : List (Rat × Rat))

/-- First-match association lookup on a native dictionary's field list. -/
def Variant.lookupField : List (String × Variant) → String → Option Variant
  | [], _ => none
  | (k, v) :: rest, key => if k = key then some v else Variant.lookupField rest key

/-- `value.get(key, d)` read of a numeric sub-field.  A present non-numeric
value is a Variant-conversion runtime error at the call site in GDScript
(`Vector2(...)`, `shape.radius = ...`); that dead branch is modelled as the
default, and no theorem below depends on it. -/
def getNum (fields : List (String × JsValue)) (key : String) (d : Rat) : Rat :=
  match JsValue.getField fields key with
  | some (.num q) => q
  | _ => d

/-- `value.get(key, d)` read of a string sub-field (same convention as
`getNum` for the ill-typed dead branch). -/
def getStr (fields : List (String × JsValue)) (key : String) (d : String) : String :=
  match JsValue.getField fields key with
  | some (.str s) => s
  | _ => d

/-- GDScript `int(f)`: float-to-int conversion truncates toward zero. -/
def ratTrunc (q : Rat) : Int :=
  q.num.tdiv (q.den : Int)

mutual

/-- The embedding of untouched wire data into the native value space: what
"return value unchanged" means for the codec's pass-through branches. -/
def Variant.ofJs : JsValue → Variant
  | .null => .vnull
  | .bool b => .vbool b
  | .num q => .vnum q
  | .str s => .vstr s
  | .arr xs => .varr xs
  | .obj fields => .vdict (Variant.ofJsFields fields)

/-- Field-wise embedding for `Variant.ofJs` on dictionaries. -/
def Variant.ofJsFields : List (String × JsValue) → List (String × Variant)
  | [] => []
  | (k, v) :: rest => (k, Variant.ofJs v) :: Variant.ofJsFields rest

end

/-- Reading a nested `convert_typed_value(value[k])` result as a `Vector2`
(the shape-property branches assign it to a `Vector2` property, and the
polygon branch appends it to a `PackedVector2Array`).  The recursive call
yields a `Vector2` exactly when its argument is a `\x7b"_type": "Vector2", ...\x7d`
dictionary — no other codec branch produces one — so the composition is
inlined here to keep the codec structurally recursive; `asVector2_convert`
below proves the inlining equal to the composed form.  When the conversion is
not a `Vector2`, the assignment is a runtime type error in GDScript and the
property keeps its prior value, passed in as `fallback`. -/
def asVector2 (v : JsValue) (fallback : Rat × Rat) : Rat × Rat :=
  match v with
  | .obj fields =>
      match JsValue.getField fields "_type" with
      | some (.str s) =>
          if s = "Vector2" then (getNum fields "x" 0, getNum fields "y" 0) else fallback
      | _ => fallback
  | _ => fallback

/-- The `match t` over the recognized type names in `convert_typed_value`,
for a dictionary that does carry `"_type" = t`.  GDScript `match` compares the
scrutinee against each literal arm in order, translated here as a sequential
string comparison chain.  A non-string tag matches no literal arm and reaches
the default arm, whose `log_debug("Unknown _type ..." + t)` argument is then a
String-plus-non-String operation — a GDScript runtime error that aborts the
call, so the caller observes null instead of a return value (the live
handler's decoder faults even earlier, at its typed `var t: String` binding);
modelled as `.vnull`.  An unrecognized *string* tag logs and returns the value
unchanged.  None of the recognized arms recurses into the codec: the only
nested conversions are the `Vector2`-producing calls on shape sub-fields,
inlined as `asVector2` (see its doc comment), so this dispatch is
non-recursive.  `env` models `ResourceLoader.exists`. -/
def convertTagged (env : String → Bool) (fields : List (String × JsValue))
    (t : JsValue) : Variant :=
  match t with
  | .str s =>
    if s = "Vector2" then
      .vec2 (getNum fields "x" 0) (getNum fields "y" 0)
    else if s = "Vector2i" then
      .vec2i (ratTrunc (getNum fields "x" 0)) (ratTrunc (getNum fields "y" 0))
    else if s = "Vector3" then
      .vec3 (getNum fields "x" 0) (getNum fields "y" 0) (getNum fields "z" 0)
    else if s = "Vector3i" then
      .vec3i (ratTrunc (getNum fields "x" 0)) (ratTrunc (getNum fields "y" 0))
        (ratTrunc (getNum fields "z" 0))
    else if s = "Color" then
      .color (getNum fields "r" 0) (getNum fields "g" 0) (getNum fields "b" 0)
        (getNum fields "a" 1)
    else if s = "Rect2" then
      .rect2 (getNum fields "x" 0) (getNum fields "y" 0) (getNum fields "w" 0)
        (getNum fields "h" 0)
    else if s = "NodePath" then
      .nodePath (getStr fields "path" "")
    else if s = "Resource" then
      let p := getStr fields "path" ""
      if p ≠ "" ∧ env p = true then .resource p else .vnull
    else if s = "RectangleShape2D" then
      .rectangleShape
        (match JsValue.getField fields "size" with
          | some sv => asVector2 sv (20, 20)
          | none => (20, 20))
    else if s = "CircleShape2D" then
      .circleShape (getNum fields "radius" 10)
    else if s = "CapsuleShape2D" then
      .capsuleShape (getNum fields "radius" 10) (getNum fields "height" 30)
    else if s = "WorldBoundaryShape2D" then
      .worldBoundaryShape
        (match JsValue.getField fields "normal" with
          | some nv => asVector2 nv (0, -1)
          | none => (0, -1))
        (getNum fields "distance" 0)
    else if s = "SegmentShape2D" then
      .segmentShape
        (match JsValue.getField fields "a" with
          | some av => asVector2 av (0, 0)
          | none => (0, 0))
        (match JsValue.getField fields "b" with
          | some bv => asVector2 bv (0, 10)
          | none => (0, 10))
    else if s = "ConvexPolygonShape2D" then
      .convexPolygonShape
        (match JsValue.getField fields "points" with
          | some (.arr pts) => pts.map (fun pt => asVector2 pt (0, 0))
          | _ => [])
    else Variant.ofJs (.obj fields)
  | _ => .vnull

mutual

/-- `convert_typed_value` (`godot_operations.gd`): non-dictionaries pass
through; a dictionary without `"_type"` is rebuilt with every value converted
recursively; a dictionary with `"_type"` is dispatched on the tag by
`convertTagged` (an unrecognized string tag returns the value unchanged; a
non-string tag is a runtime error in the source, observed as null). -/
def convert_typed_value (env : String → Bool) : JsValue → Variant
  | .null => .vnull
  | .bool b => .vbool b
  | .num q => .vnum q
  | .str s => .vstr s
  | .arr xs => .varr xs
  | .obj fields =>
    match JsValue.getField fields "_type" with
    | none => .vdict (convertFields env fields)
    | some t => convertTagged env fields t

/-- The `for key in value` rebuild loop of the untagged-dictionary branch. -/
def convertFields (env : String → Bool) : List (String × JsValue) → List (String × Variant)
  | [] => []
  | (k, v) :: rest => (k, convert_typed_value env v) :: convertFields env rest

end

/-- The canonical tagged wire form of a 2D vector. -/
def vec2Wire (p : Rat × Rat) : JsValue :=
  .obj [("_type", .str "Vector2"), ("x", .num p.1), ("y", .num p.2)]

mutual

/-- Modelled from the spec: the repository has no single encoder — controller
call sites hand-build the tagged wire form — so `encode` is the §4.3 wire
representation: a native structured value becomes a dictionary carrying its
`"_type"` tag and every field the type defines; plain dictionaries are encoded
field-by-field and scalars pass through. -/
def encode : Variant → JsValue
  | .vnull => .null
  | .vbool b => .bool b
  | .vnum q => .num q
  | .vstr s => .str s
  | .varr xs => .arr xs
  | .vdict fields => .obj (encodeFields fields)
  | .vec2 x y => vec2Wire (x, y)
  | .vec2i x y =>
      .obj [("_type", .str "Vector2i"), ("x", .num (x : Rat)), ("y", .num (y : Rat))]
  | .vec3 x y z =>
      .obj [("_type", .str "Vector3"), ("x", .num x), ("y", .num y), ("z", .num z)]
  | .vec3i x y z =>
      .obj [("_type", .str "Vector3i"), ("x", .num (x : Rat)), ("y", .num (y : Rat)),
        ("z", .num (z : Rat))]
  | .color r g b a =>
      .obj [("_type", .str "Color"), ("r", .num r), ("g", .num g), ("b", .num b),
        ("a", .num a)]
  | .rect2 x y w h =>
      .obj [("_type", .str "Rect2"), ("x", .num x), ("y", .num y), ("w", .num w),
        ("h", .num h)]
  | .nodePath p => .obj [("_type", .str "NodePath"), ("path", .str p)]
  | .resource p => .obj [("_type", .str "Resource"), ("path", .str p)]
  | .rectangleShape s => .obj [("_type", .str "RectangleShape2D"), ("size", vec2Wire s)]
  | .circleShape r => .obj [("_type", .str "CircleShape2D"), ("radius", .num r)]
  | .capsuleShape r h =>
      .obj [("_type", .str "CapsuleShape2D"), ("radius", .num r), ("height", .num h)]
  | .worldBoundaryShape n d =>
      .obj [("_type", .str "WorldBoundaryShape2D"), ("normal", vec2Wire n),
        ("distance", .num d)]
  | .segmentShape a b =>
      .obj [("_type", .str "SegmentShape2D"), ("a", vec2Wire a), ("b", vec2Wire b)]
  | .convexPolygonShape pts =>
      .obj [("_type", .str "ConvexPolygonShape2D"), ("points", .arr (pts.map vec2Wire))]

/-- Field-wise encoding of a plain native dictionary. -/
def encodeFields : List (String × Variant) → List (String × JsValue)
  | [] => []
  | (k, v) :: rest => (k, encode v) :: encodeFields rest

end

mutual

/-- Native values whose wire form survives the round trip: no plain dictionary
may itself carry a `"_type"` key (it would be mistaken for a tag), and a
loaded resource's path is nonempty and present in `env` (a loaded resource's
`resource_path` does exist).  Every other constructor is unconstrained. -/
def wfVariant (env : String → Bool) : Variant → Bool
  | .vdict fields =>
      (Variant.lookupField fields "_type").isNone && wfVariantFields env fields
  | .resource p => (p != "") && env p
  | _ => true

/-- `wfVariant` for every value of a dictionary's field list. -/
def wfVariantFields (env : String → Bool) : List (String × Variant) → Bool
  | [] => true
  | (_, v) :: rest => wfVariant env v && wfVariantFields env rest

end

/-- The discriminator values the `match` in `convert_typed_value` recognizes;
any other `"_type"` value falls to its default arm. -/
def knownTypeTags : List String :=
  ["Vector2", "Vector2i", "Vector3", "Vector3i", "Color", "Rect2", "NodePath",
   "Resource", "RectangleShape2D", "CircleShape2D", "CapsuleShape2D",
   "WorldBoundaryShape2D", "SegmentShape2D", "ConvexPolygonShape2D"]

/-! ## Target-side dispatcher (`bridge_server.gd`)

`_handle_message` parses an inbound text frame, coerces `id`, looks up the
method in `_handlers` and either replies at once or, for a handler result that
is a dictionary carrying `"_deferred"` (bound to a `Signal`), awaits that
signal before replying.  Handler results live in `GVal`: wire JSON plus the
`Signal` variant that only handlers produce. -/

/-- GDScript values a registered handler may return: JSON-representable data
plus `Signal` handles (identified by a token). -/
inductive GVal where
  | null
  | bool (b : Bool)
  | num (q : Rat)
  | str (s : String)
  | arr (xs : List GVal)
  | obj (fields : List (String × GVal))
  | signal (sid : Nat)

/-- First-match association lookup on a handler-result dictionary. -/
def GVal.getField : List (String × GVal) → String → Option GVal
  | [], _ => none
  | (k, v) :: rest, key => if k = key then some v else GVal.getField rest key

mutual

/-- GDScript `str()` on a parsed JSON value, as `_handle_message` applies it to
the `id` field.  JSON numbers are floats in Godot, and `str` prints an
integral float without a decimal point (`str(5.0) = "5"`); a non-integral
float prints in decimal, abbreviated here as a fraction — only the integral
case is reachable through any frame the protocol describes.  Containers print
in Godot's bracketed element syntax. -/
def gdStr : JsValue → String
  | .null => "<null>"
  | .bool b => if b then "true" else "false"
  | .num q => if q.den = 1 then toString q.num else toString q.num ++ "/" ++ toString q.den
  | .str s => s
  | .arr xs => "[" ++ gdStrElems xs ++ "]"
  | .obj fields => "\x7b " ++ gdStrFields fields ++ " \x7d"

/-- Comma-joined element rendering for `gdStr` on arrays. -/
def gdStrElems : List JsValue → String
  | [] => ""
  | [x] => gdStr x
  | x :: y :: rest => gdStr x ++ ", " ++ gdStrElems (y :: rest)

/-- Comma-joined key/value rendering for `gdStr` on dictionaries. -/
def gdStrFields : List (String × JsValue) → String
  | [] => ""
  | [(k, v)] => "\"" ++ k ++ "\": " ++ gdStr v
  | (k, v) :: f :: rest => "\"" ++ k ++ "\": " ++ gdStr v ++ ", " ++ gdStrFields (f :: rest)

end

/-- A response frame the dispatcher writes: `_send_result` builds
`id`/`result`, `_send_error` builds `id`/`error(code, message)`.  Both take
the id as a `String`. -/
inductive ResponseFrame where
  | result (id : String) (value : GVal)
  | error (id : String) (code : Int) (message : String)

/-- The dispatcher's handling of one inbound frame, as observed on the wire:
an immediate reply; a suspension on a signal with the response id retained
(the `await deferred_signal` path, which sends nothing yet); or a GDScript
runtime error aborting `_handle_message` with no reply (ill-typed `method` or
`"_deferred"` value — dead code for the shipped handlers). -/
inductive DispatchOutcome where
  | reply (frame : ResponseFrame)
  | deferredReply (sid : Nat) (id : String)
  | scriptError

/-- What `_handle_message` sends *during* dispatch: only an immediate reply
ever produces a frame before any awaited event fires. -/
def immediateFrame : DispatchOutcome → Option ResponseFrame
  | .reply f => some f
  | _ => none

/-- The `_send_result(peer, id, deferred_result)` call performed after the
awaited signal fires with the eventual value. -/
def completeDeferred (id : String) (eventual : GVal) : ResponseFrame :=
  .result id eventual

/-- The id a frame carries (a `String` by construction of both senders). -/
def frameId : ResponseFrame → String
  | .result id _ => id
  | .error id _ _ => id

/-- The id of whatever response the outcome will carry, if any: the immediate
frame's id, or the retained id of a deferred reply. -/
def outcomeId : DispatchOutcome → Option String
  | .reply f => some (frameId f)
  | .deferredReply _ id => some id
  | .scriptError => none

/-- Whether a frame has the error shape (`id`/`error(code, message)`). -/
def ResponseFrame.isErrorShape : ResponseFrame → Bool
  | .error _ _ _ => true
  | .result _ _ => false

/-- The tail of `_handle_message` after the handler call: a `Dictionary`
result containing `"_deferred"` makes the dispatcher await the bound `Signal`
(sending nothing now); binding a non-`Signal` to `var deferred_signal: Signal`
is a runtime error; everything else is sent right away via `_send_result`. -/
def respondWith (id : String) (result : GVal) : DispatchOutcome :=
  match result with
  | .obj rfields =>
      match GVal.getField rfields "_deferred" with
      | some (.signal sid) => .deferredReply sid id
      | some _ => .scriptError
      | none => .reply (.result id result)
  | r => .reply (.result id r)

/-- `_handle_message`: a failed `JSON.parse` is answered with the sentinel id
`"0"` and code `-32700`; a non-dictionary parse with `"0"`/`-32600`; then
`id := str(msg.get("id", "0"))`, a missing or empty `method` is answered with
`-32600`, an unregistered one with `-32601`, and otherwise the registered
handler runs on `params` and `respondWith` finishes the call.  A present
non-string `method` faults the typed local binding
(`var method: String = ...`). -/
def handle_message (handlers : String → Option (JsValue → GVal))
    (data : Except String JsValue) : DispatchOutcome :=
  match data with
  | .error e => .reply (.error "0" (-32700) ("Parse error: " ++ e))
  | .ok msg =>
    match msg with
    | .obj fields =>
      let id := gdStr (JsValue.getD fields "id" (.str "0"))
      match JsValue.getD fields "method" (.str "") with
      | .str method =>
          if method = "" then .reply (.error id (-32600) "Missing method")
          else
            match handlers method with
            | none => .reply (.error id (-32601) ("Method not found: " ++ method))
            | some h => respondWith id (h (JsValue.getD fields "params" (.obj [])))
      | _ => .scriptError
    | _ => .reply (.error "0" (-32600) "Invalid request: expected object")

/-- The per-tick packet loop handles each drained frame independently with
`_handle_message`. -/
def processFrames (handlers : String → Option (JsValue → GVal))
    (frames : List (Except String JsValue)) : List DispatchOutcome :=
  frames.map (handle_message handlers)

/-! ### The registered handlers (`_ready` of `bridge_server.gd`)

The registry binds the ten method names to callables on four handler objects.
`ping` and the screenshot entry point are translated below; the remaining
callables mutate live editor state and enter the registry as parameters. -/

/-- The handler callables `_ready` installs, one field per registered method. -/
structure BridgeHandlers where
  ping : JsValue → GVal
  capture_screenshot : JsValue → GVal
  send_input_event : JsValue → GVal
  send_action : JsValue → GVal
  get_scene_tree : JsValue → GVal
  get_node_properties : JsValue → GVal
  set_node_property : JsValue → GVal
  delete_node : JsValue → GVal
  set_tiles : JsValue → GVal
  reparent_node : JsValue → GVal

/-- The `_handlers` dictionary built in `_ready`. -/
def registerHandlers (H : BridgeHandlers) : String → Option (JsValue → GVal) :=
  fun m =>
    if m = "ping" then some H.ping
    else if m = "capture_screenshot" then some H.capture_screenshot
    else if m = "send_input_event" then some H.send_input_event
    else if m = "send_action" then some H.send_action
    else if m = "get_scene_tree" then some H.get_scene_tree
    else if m = "get_node_properties" then some H.get_node_properties
    else if m = "set_node_property" then some H.set_node_property
    else if m = "delete_node" then some H.delete_node
    else if m = "set_tiles" then some H.set_tiles
    else if m = "reparent_node" then some H.reparent_node
    else none

/-- `_handle_ping`. -/
def handle_ping (_params : JsValue) : GVal :=
  .obj [("status", .str "ok"), ("server", .str "mechanical-turk-mcp"),
    ("version", .str "0.1.0")]

/-- The screenshot handler's `screenshot_ready` signal. -/
def screenshot_ready : Nat := 0

/-- `handle` of `screenshot_handler.gd`: kick off the deferred capture and
hand the dispatcher the `"_deferred"` marker bound to `screenshot_ready`. -/
def screenshot_handle (_params : JsValue) : GVal :=
  .obj [("_deferred", .signal screenshot_ready)]

/-- The shape test `result is Dictionary and result.has("_deferred")` that
`_handle_message` uses to recognize a deferred handler result. -/
def isDeferredMarker : GVal → Bool
  | .obj fields => (GVal.getField fields "_deferred").isSome
  | _ => false

/-- Godot `String.trim_prefix`: strip one leading occurrence. -/
def trimLead (s pre : String) : String :=
  if s.startsWith pre then s.drop pre.length else s

/-- The live scene tree as `handle_set_property` observes it: which node paths
`root.get_node_or_null` resolves (paths are taken after the `/root` strip). -/
structure TreeModel where
  hasNode : String → Bool

/-- The `\x7b"error": msg\x7d` dictionaries the level handler returns on a
semantic failure. -/
def errDict (msg : String) : GVal :=
  .obj [("error", .str msg)]

/-- `handle_set_property` of `level_handler.gd`, observed through its returned
dictionary (the `node.set(property, converted)` mutation acts on the live
tree and is not part of the returned value). -/
def handle_set_property (tree : Option TreeModel) (params : JsValue) : GVal :=
  match params with
  | .obj fields =>
    let node_path := getStr fields "node_path" ""
    let property := getStr fields "property" ""
    if node_path = "" ∨ property = "" then errDict "node_path and property are required"
    else
      match tree with
      | none => errDict "No scene tree available"
      | some t =>
        let found := if node_path = "/root" then true else t.hasNode (trimLead node_path "/root")
        if found then
          .obj [("status", .str "ok"), ("node", .str node_path), ("property", .str property)]
        else errDict ("Node not found: " ++ node_path)
  | _ => errDict "Invalid params"

/-! ## Vector2 auto-detection (`godot-types.ts`) -/

/-- `looksLikeVector2`: a non-null, non-array object whose `x` and `y` are
numbers, with no `z` key and no `_type` key. -/
def looksLikeVector2 : JsValue → Bool
  | .obj fields =>
      (match JsValue.getField fields "x" with | some (.num _) => true | _ => false)
        && (match JsValue.getField fields "y" with | some (.num _) => true | _ => false)
        && (JsValue.getField fields "z").isNone
        && (JsValue.getField fields "_type").isNone
  | _ => false

/-- `autoDetectVector2`: wrap a qualifying plain mapping as a tagged
`Vector2`; return anything else unchanged. -/
def autoDetectVector2 (v : JsValue) : JsValue :=
  if looksLikeVector2 v then
    match v with
    | .obj fields =>
        .obj [("_type", .str "Vector2"),
          ("x", JsValue.getD fields "x" .null), ("y", JsValue.getD fields "y" .null)]
    | w => w
  else v

/-! ## Parameter normalizer (`normalizeParameters` / `convertCamelToSnakeCase`) -/

/-- The `parameterMappings` table: wire (snake_case) key to internal
(camelCase) key, in source order. -/
def parameterMappings : List (String × String) :=
  [("project_path", "projectPath"),
   ("scene_path", "scenePath"),
   ("root_node_type", "rootNodeType"),
   ("parent_node_path", "parentNodePath"),
   ("node_type", "nodeType"),
   ("node_name", "nodeName"),
   ("texture_path", "texturePath"),
   ("node_path", "nodePath"),
   ("output_path", "outputPath"),
   ("mesh_item_names", "meshItemNames"),
   ("new_path", "newPath"),
   ("file_path", "filePath"),
   ("directory", "directory"),
   ("recursive", "recursive"),
   ("scene", "scene"),
   ("event_type", "eventType"),
   ("key_code", "keyCode"),
   ("root_path", "rootPath"),
   ("include_properties", "includeProperties"),
   ("test_script", "testScript"),
   ("test_name", "testName"),
   ("test_dir", "testDir"),
   ("include_subdirs", "includeSubdirs"),
   ("xml_output", "xmlOutput")]

/-- `parameterMappings[key]` (snake-side lookup; keys are unique). -/
def lookupSnake : List (String × String) → String → Option String
  | [], _ => none
  | (s, c) :: rest, key => if s = key then some c else lookupSnake rest key

/-- `reverseParameterMappings[key]`: the inverted table, built by swapping
each entry (camel values are unique, so first-match equals the built map). -/
def lookupCamel : List (String × String) → String → Option String
  | [], _ => none
  | (s, c) :: rest, key => if c = key then some s else lookupCamel rest key

/-- `key.includes('_')`, read off the key's character list. -/
def containsChar (s : String) (c : Char) : Bool :=
  s.data.contains c

/-- The key rewrite inside `normalizeParameters`:
`key.includes('_') && parameterMappings[key] ? parameterMappings[key] : key`
(table values are nonempty strings, hence truthy). -/
def toInternalKey (k : String) : String :=
  if containsChar k '_' then
    match lookupSnake parameterMappings k with
    | some c => c
    | none => k
  else k

/-- The character class of the regex `[A-Z]` in `convertCamelToSnakeCase`. -/
def isAsciiUpper (c : Char) : Bool :=
  65 ≤ c.toNat && c.toNat ≤ 90

/-- `letter.toLowerCase()` on an `[A-Z]` match. -/
def asciiLower (c : Char) : Char :=
  Char.ofNat (c.toNat + 32)

/-- `key.replace(/[A-Z]/g, letter => underscore + letter.toLowerCase())`,
character by character. -/
def snakeChars : List Char → List Char
  | [] => []
  | c :: cs => if isAsciiUpper c then '_' :: asciiLower c :: snakeChars cs
      else c :: snakeChars cs

/-- The programmatic camel-to-snake derivation as a string function. -/
def deriveSnakeKey (s : String) : String :=
  String.mk (snakeChars s.data)

/-- The key rewrite inside `convertCamelToSnakeCase`:
`reverseParameterMappings[key] || derived` (reverse-table values are nonempty,
hence truthy). -/
def toWireKey (k : String) : String :=
  match lookupCamel parameterMappings k with
  | some s => s
  | none => deriveSnakeKey k

/-- Field-list rewrite of `normalizeParameters`: every key through
`toInternalKey`; a plain-object value (not null, not an array) is rewritten
recursively, every other value is copied. -/
def normalizeParametersFields : List (String × JsValue) → List (String × JsValue)
  | [] => []
  | (k, .obj f) :: rest =>
      (toInternalKey k, .obj (normalizeParametersFields f)) :: normalizeParametersFields rest
  | (k, v) :: rest => (toInternalKey k, v) :: normalizeParametersFields rest

/-- `normalizeParameters` on a wire value (a non-object argument is returned
unchanged by the leading guard; the source would treat a top-level array as an
object of its indices, a call shape no caller uses and not modelled). -/
def normalizeParameters : JsValue → JsValue
  | .obj fields => .obj (normalizeParametersFields fields)
  | v => v

/-- Field-list rewrite of `convertCamelToSnakeCase`: every key through
`toWireKey`, recursing exactly as `normalizeParametersFields` does. -/
def convertCamelToSnakeCaseFields : List (String × JsValue) → List (String × JsValue)
  | [] => []
  | (k, .obj f) :: rest =>
      (toWireKey k, .obj (convertCamelToSnakeCaseFields f)) :: convertCamelToSnakeCaseFields rest
  | (k, v) :: rest => (toWireKey k, v) :: convertCamelToSnakeCaseFields rest

/-- `convertCamelToSnakeCase` on a wire value. -/
def convertCamelToSnakeCase : JsValue → JsValue
  | .obj fields => .obj (convertCamelToSnakeCaseFields fields)
  | v => v

/-! # Theorems -/

/-! ## Pending-table lemmas -/

/-- Deleting an id removes every trace of it from the pending table. -/
theorem lookupPending_deletePending_self (table : List (String × Nat)) (id : String) :
    ClientState.lookupPending (ClientState.deletePending table id) id = none := by
  induction table with
  | nil => rfl
  | cons kv rest ih =>
      by_cases h : kv.1 = id
      · simp [ClientState.deletePending, List.filter, h] at ih ⊢
        exact ih
      · simp [ClientState.deletePending, List.filter, h] at ih ⊢
        simp [ClientState.lookupPending, h]
        exact ih

/-- Deleting one id leaves every other id's entry untouched. -/
theorem lookupPending_deletePending_ne (table : List (String × Nat)) (id id' : String)
    (h : id' ≠ id) :
    ClientState.lookupPending (ClientState.deletePending table id) id' =
      ClientState.lookupPending table id' := by
  induction table with
  | nil => rfl
  | cons kv rest ih =>
      by_cases hk : kv.1 = id
      · have hk' : kv.1 ≠ id' := by
          rw [hk]; exact fun hc => h hc.symm
        simp [ClientState.deletePending, List.filter, hk] at ih ⊢
        rw [ih]
        simp [ClientState.lookupPending, hk']
      · simp [ClientState.deletePending, List.filter, hk] at ih ⊢
        by_cases hv : kv.1 = id'
        · simp [ClientState.lookupPending, hv]
        · simp [ClientState.lookupPending, hv]
          exact ih

/-- Claim C1: delivering a response frame settles (resolves, or rejects when it
carries an error) exactly the pending call whose id matches the response's id,
removing it from the pending table and leaving every other pending call
untouched; a response with no matching pending call is silently discarded; in
particular, with calls A and B pending, B's response resolves B's promise and
leaves A pending. -/
theorem bridgeClient_id_correlation :
    (∀ (p : Nat) (resp : BridgeResponse) (e : BridgeError), resp.error = some e →
      responseEvent p resp = .rejected p ("Bridge error: " ++ e.message)) ∧
    (∀ (p : Nat) (resp : BridgeResponse), resp.error = none →
      responseEvent p resp = .resolved p resp.result) ∧
    (∀ (st : ClientState) (resp : BridgeResponse) (p : Nat),
      ClientState.lookupPending st.pending resp.id = some p →
        (onMessage st resp).2 = [responseEvent p resp] ∧
        ClientState.lookupPending (onMessage st resp).1.pending resp.id = none ∧
        (∀ id', id' ≠ resp.id →
          ClientState.lookupPending (onMessage st resp).1.pending id' =
            ClientState.lookupPending st.pending id') ∧
        (onMessage st resp).1.connected = st.connected) ∧
    (∀ (st : ClientState) (resp : BridgeResponse),
      ClientState.lookupPending st.pending resp.id = none →
        onMessage st resp = (st, [])) ∧
    (∀ (A B : String) (pa pb : Nat) (r : Option JsValue) (c : Bool), A ≠ B →
      onMessage ⟨c, [(A, pa), (B, pb)]⟩ ⟨B, r, none⟩ =
        (⟨c, [(A, pa)]⟩, [ClientEvent.resolved pb r]) ∧
      ClientState.lookupPending [(A, pa)] A = some pa) := by
  refine ⟨?_, ?_, ?_, ?_, ?_⟩
  · intro p resp e he
    simp [responseEvent, he]
  · intro p resp he
    simp [responseEvent, he]
  · intro st resp p hp
    have h1 : onMessage st resp =
        ({ st with pending := ClientState.deletePending st.pending resp.id },
         [responseEvent p resp]) := by
      simp [onMessage, hp]
    rw [h1]
    exact ⟨rfl, lookupPending_deletePending_self st.pending resp.id,
      fun id' hne => lookupPending_deletePending_ne st.pending resp.id id' hne, rfl⟩
  · intro st resp hnone
    simp [onMessage, hnone]
  · intro A B pa pb r c hAB
    have hA : A = B ↔ False := ⟨fun h => hAB h, False.elim⟩
    constructor
    · simp [onMessage, ClientState.lookupPending, ClientState.deletePending,
        List.filter, responseEvent, hA, hAB]
    · simp [ClientState.lookupPending]

/-- Witness for C1 at a two-call table: the response for id "2" settles the
pending call 20 and the table keeps only id "1". -/
theorem bridgeClient_id_correlation_witness :
    ClientState.lookupPending [("1", 10), ("2", 20)] "2" = some 20 ∧
    ("1" : String) ≠ "2" ∧
    (onMessage ⟨true, [("1", 10), ("2", 20)]⟩ ⟨"2", some .null, none⟩).2 =
      [responseEvent 20 ⟨"2", some .null, none⟩] ∧
    onMessage ⟨true, [("1", 10), ("2", 20)]⟩ ⟨"2", some .null, none⟩ =
      (⟨true, [("1", 10)]⟩, [ClientEvent.resolved 20 (some .null)]) :=
  ⟨rfl, by decide,
    (bridgeClient_id_correlation.2.2.1 ⟨true, [("1", 10), ("2", 20)]⟩
      ⟨"2", some .null, none⟩ 20 rfl).1,
    ((bridgeClient_id_correlation.2.2.2.2 "1" "2" 10 20 (some .null) true
      (by decide)).1)⟩

/-- Claim C2: the close handler rejects every pending call with the
connection-closed error, empties the pending table, and leaves the client
disconnected, so a later connect attempt can succeed again. -/
theorem bridgeClient_close_fanout :
    ∀ st : ClientState,
      (onClose st).1.pending = [] ∧
      (onClose st).1.connected = false ∧
      (onClose st).2 =
        st.pending.map (fun kv => ClientEvent.rejected kv.2 "Bridge connection closed") ∧
      (connectSucceed (onClose st).1).connected = true ∧
      (∀ id p, (id, p) ∈ st.pending →
        ClientEvent.rejected p "Bridge connection closed" ∈ (onClose st).2) := by
  intro st
  refine ⟨rfl, rfl, rfl, rfl, ?_⟩
  intro id p hmem
  exact List.mem_map_of_mem _ hmem

/-- Witness for C2 with three pending calls: all three are rejected and the
table is empty afterward. -/
theorem bridgeClient_close_fanout_witness :
    (onClose ⟨true, [("1", 10), ("2", 20), ("3", 30)]⟩).1.pending = [] ∧
    (onClose ⟨true, [("1", 10), ("2", 20), ("3", 30)]⟩).2 =
      [ClientEvent.rejected 10 "Bridge connection closed",
       ClientEvent.rejected 20 "Bridge connection closed",
       ClientEvent.rejected 30 "Bridge connection closed"] ∧
    ("2", 20) ∈ ([("1", 10), ("2", 20), ("3", 30)] : List (String × Nat)) ∧
    ClientEvent.rejected 20 "Bridge connection closed" ∈
      (onClose ⟨true, [("1", 10), ("2", 20), ("3", 30)]⟩).2 :=
  ⟨(bridgeClient_close_fanout ⟨true, [("1", 10), ("2", 20), ("3", 30)]⟩).1,
   rfl,
   by simp,
   (bridgeClient_close_fanout ⟨true, [("1", 10), ("2", 20), ("3", 30)]⟩).2.2.2.2
     "2" 20 (by simp)⟩

/-! ## Dispatcher theorems -/

/-- Whatever `respondWith` will answer carries the id it was handed. -/
theorem outcomeId_respondWith (id : String) (r : GVal) (s : String) :
    outcomeId (respondWith id r) = some s → s = id := by
  cases r with
  | obj rfields =>
      cases hg : GVal.getField rfields "_deferred" with
      | none =>
          simp [respondWith, hg, outcomeId, frameId]
          exact fun h => h.symm
      | some v =>
          cases v <;> simp [respondWith, hg, outcomeId, frameId] <;>
            exact fun h => h.symm
  | null => simp [respondWith, outcomeId, frameId]; exact fun h => h.symm
  | bool b => simp [respondWith, outcomeId, frameId]; exact fun h => h.symm
  | num q => simp [respondWith, outcomeId, frameId]; exact fun h => h.symm
  | str s' => simp [respondWith, outcomeId, frameId]; exact fun h => h.symm
  | arr xs => simp [respondWith, outcomeId, frameId]; exact fun h => h.symm
  | signal sid => simp [respondWith, outcomeId, frameId]; exact fun h => h.symm

/-- Claim C3: the dispatcher answers a parse failure with sentinel id "0" and
code -32700, a request without a method with code -32600, and an unregistered
method with code -32601; in particular the "does_not_exist" probe is answered
with exactly id "5" and code -32601. -/
theorem dispatcher_reserved_codes :
    (∀ (handlers : String → Option (JsValue → GVal)) (e : String),
      handle_message handlers (.error e) =
        .reply (.error "0" (-32700) ("Parse error: " ++ e))) ∧
    (∀ (handlers : String → Option (JsValue → GVal)) (fields : List (String × JsValue)),
      JsValue.getField fields "method" = none →
        handle_message handlers (.ok (.obj fields)) =
          .reply (.error (gdStr (JsValue.getD fields "id" (.str "0"))) (-32600)
            "Missing method")) ∧
    (∀ (handlers : String → Option (JsValue → GVal)) (fields : List (String × JsValue))
        (m : String),
      JsValue.getField fields "method" = some (.str m) → m ≠ "" → handlers m = none →
        handle_message handlers (.ok (.obj fields)) =
          .reply (.error (gdStr (JsValue.getD fields "id" (.str "0"))) (-32601)
            ("Method not found: " ++ m))) ∧
    (∀ H : BridgeHandlers,
      handle_message (registerHandlers H)
        (.ok (.obj [("id", .str "5"), ("method", .str "does_not_exist"),
          ("params", .obj [])])) =
        .reply (.error "5" (-32601) "Method not found: does_not_exist")) := by
  refine ⟨fun handlers e => rfl, ?_, ?_, fun H => rfl⟩
  · intro handlers fields hm
    simp [handle_message, JsValue.getD, hm]
  · intro handlers fields m hm hne hreg
    simp [handle_message, JsValue.getD, hm, hne, hreg]

/-- Witness for C3: a concrete table with no method field, a concrete
unregistered method, and the probe request. -/
theorem dispatcher_reserved_codes_witness :
    JsValue.getField [("id", .num 5)] "method" = none ∧
    handle_message (registerHandlers
        ⟨handle_ping, screenshot_handle, fun _ => .null, fun _ => .null, fun _ => .null,
         fun _ => .null, fun _ => .null, fun _ => .null, fun _ => .null, fun _ => .null⟩)
      (.ok (.obj [("id", .num 5)])) =
      .reply (.error (gdStr (JsValue.getD [("id", .num 5)] "id" (.str "0"))) (-32600)
        "Missing method") ∧
    handle_message (registerHandlers
        ⟨handle_ping, screenshot_handle, fun _ => .null, fun _ => .null, fun _ => .null,
         fun _ => .null, fun _ => .null, fun _ => .null, fun _ => .null, fun _ => .null⟩)
      (.ok (.obj [("id", .str "5"), ("method", .str "does_not_exist"), ("params", .obj [])])) =
      .reply (.error "5" (-32601) "Method not found: does_not_exist") :=
  ⟨rfl,
   dispatcher_reserved_codes.2.1 _ [("id", .num 5)] rfl,
   dispatcher_reserved_codes.2.2.2
     ⟨handle_ping, screenshot_handle, fun _ => .null, fun _ => .null, fun _ => .null,
      fun _ => .null, fun _ => .null, fun _ => .null, fun _ => .null, fun _ => .null⟩⟩

/-- Claim C10: every response the dispatcher emits for a frame that parsed to
a JSON object carries `str(msg.get("id", "0"))` as its id — a string by
construction; numeric id 5 is answered as "5" and a missing id as "0". -/
theorem dispatcher_id_coercion :
    (∀ (handlers : String → Option (JsValue → GVal)) (fields : List (String × JsValue))
        (s : String),
      outcomeId (handle_message handlers (.ok (.obj fields))) = some s →
        s = gdStr (JsValue.getD fields "id" (.str "0"))) ∧
    gdStr (.num 5) = "5" ∧
    gdStr (JsValue.getD [] "id" (.str "0")) = "0" ∧
    (∀ H : BridgeHandlers,
      handle_message (registerHandlers H)
        (.ok (.obj [("id", .num 5), ("method", .str "nope")])) =
        .reply (.error "5" (-32601) "Method not found: nope")) ∧
    (∀ H : BridgeHandlers,
      handle_message (registerHandlers H) (.ok (.obj [("method", .str "nope")])) =
        .reply (.error "0" (-32601) "Method not found: nope")) := by
  refine ⟨?_, rfl, rfl, fun H => rfl, fun H => rfl⟩
  intro handlers fields s
  simp only [handle_message]
  cases hm : JsValue.getD fields "method" (.str "") with
  | str m =>
      by_cases hme : m = ""
      · subst hme
        simp [outcomeId, frameId]
        exact fun h => h.symm
      · simp only [hme, if_false]
        cases hh : handlers m with
        | none =>
            simp [outcomeId, frameId]
            exact fun h => h.symm
        | some hdl => exact outcomeId_respondWith _ _ _
  | null => simp [outcomeId]
  | bool b => simp [outcomeId]
  | num q => simp [outcomeId]
  | arr xs => simp [outcomeId]
  | obj f => simp [outcomeId]

/-- Witness for C10: the coercion statement applied to a concrete dispatch
whose emitted id is known. -/
theorem dispatcher_id_coercion_witness :
    outcomeId (handle_message (fun _ => none) (.ok (.obj [("id", .num 5)]))) = some "5" ∧
    "5" = gdStr (JsValue.getD [("id", .num 5)] "id" (.str "0")) :=
  ⟨rfl, dispatcher_id_coercion.1 (fun _ => none) [("id", .num 5)] "5" rfl⟩

/-- Claim C4: a handler result that is a dictionary carrying "_deferred"
produces no response frame at dispatch time — the dispatcher suspends on the
bound signal and replies with a result frame for the same id only when the
event fires — while any result not tagged as deferred is answered with an
immediate result frame; concretely, the screenshot handler registered for
capture_screenshot hands back its deferred marker. -/
theorem dispatcher_deferred_dispatch :
    (∀ (id : String) (rfields : List (String × GVal)) (sid : Nat),
      GVal.getField rfields "_deferred" = some (.signal sid) →
        respondWith id (.obj rfields) = .deferredReply sid id ∧
        immediateFrame (respondWith id (.obj rfields)) = none ∧
        (∀ eventual : GVal, completeDeferred id eventual = .result id eventual)) ∧
    (∀ (id : String) (rfields : List (String × GVal)),
      (GVal.getField rfields "_deferred").isSome →
        immediateFrame (respondWith id (.obj rfields)) = none) ∧
    (∀ (id : String) (r : GVal), isDeferredMarker r = false →
      respondWith id r = .reply (.result id r)) ∧
    (∀ (H : BridgeHandlers) (fields : List (String × JsValue)),
      H.capture_screenshot = screenshot_handle →
      JsValue.getField fields "method" = some (.str "capture_screenshot") →
        handle_message (registerHandlers H) (.ok (.obj fields)) =
          .deferredReply screenshot_ready (gdStr (JsValue.getD fields "id" (.str "0")))) := by
  refine ⟨?_, ?_, ?_, ?_⟩
  · intro id rfields sid hsig
    exact ⟨by simp [respondWith, hsig], by simp [respondWith, hsig, immediateFrame],
      fun eventual => rfl⟩
  · intro id rfields hsome
    cases hg : GVal.getField rfields "_deferred" with
    | none => rw [hg] at hsome; simp at hsome
    | some v => cases v <;> simp [respondWith, hg, immediateFrame]
  · intro id r hnot
    cases r with
    | obj rfields =>
        simp only [isDeferredMarker, Option.isSome] at hnot
        cases hg : GVal.getField rfields "_deferred" with
        | none => simp [respondWith, hg]
        | some v => rw [hg] at hnot; simp at hnot
    | null => rfl
    | bool b => rfl
    | num q => rfl
    | str s => rfl
    | arr xs => rfl
    | signal sid => rfl
  · intro H fields hcap hm
    simp [handle_message, JsValue.getD, hm, registerHandlers, hcap, screenshot_handle,
      respondWith, GVal.getField]

/-- Witness for C4: a concrete deferred marker defers with no immediate frame,
and a concrete capture_screenshot request defers on screenshot_ready. -/
theorem dispatcher_deferred_dispatch_witness :
    GVal.getField [("_deferred", .signal 0)] "_deferred" = some (.signal 0) ∧
    respondWith "9" (.obj [("_deferred", .signal 0)]) = .deferredReply 0 "9" ∧
    handle_message (registerHandlers
        ⟨handle_ping, screenshot_handle, fun _ => .null, fun _ => .null, fun _ => .null,
         fun _ => .null, fun _ => .null, fun _ => .null, fun _ => .null, fun _ => .null⟩)
      (.ok (.obj [("id", .str "9"), ("method", .str "capture_screenshot"),
        ("params", .obj [])])) =
      .deferredReply screenshot_ready "9" :=
  ⟨rfl,
   (dispatcher_deferred_dispatch.1 "9" [("_deferred", .signal 0)] 0 rfl).1,
   dispatcher_deferred_dispatch.2.2.2
     ⟨handle_ping, screenshot_handle, fun _ => .null, fun _ => .null, fun _ => .null,
      fun _ => .null, fun _ => .null, fun _ => .null, fun _ => .null, fun _ => .null⟩
     [("id", .str "9"), ("method", .str "capture_screenshot"), ("params", .obj [])]
     rfl rfl⟩

/-- Counterexample to claim C7: a set_node_property call on a missing node is
answered with a result-shaped frame whose payload is an error dictionary —
not with the id/error(code, message) shape the claim asserts. -/
theorem dispatcher_handler_error_counterexample :
    handle_message (registerHandlers
        ⟨handle_ping, screenshot_handle, fun _ => .null, fun _ => .null, fun _ => .null,
         fun _ => .null, handle_set_property (some ⟨fun _ => false⟩), fun _ => .null,
         fun _ => .null, fun _ => .null⟩)
      (.ok (.obj [("id", .str "7"), ("method", .str "set_node_property"),
        ("params", .obj [("node_path", .str "/root/Missing"),
          ("property", .str "visible")])])) =
      .reply (.result "7" (.obj [("error", .str "Node not found: /root/Missing")])) ∧
    ResponseFrame.isErrorShape
      (.result "7" (.obj [("error", .str "Node not found: /root/Missing")])) = false :=
  ⟨rfl, rfl⟩

/-- Claim C7 as amended: a handler's semantic failure is carried to the
controller inside a success-shaped response frame, id/result where the result
is the handler's error dictionary with a descriptive message and no numeric
code; the dispatcher replies normally (no crash) and every frame in a tick is
dispatched independently, so one failing call does not affect subsequent
calls. -/
theorem dispatcher_handler_error_amended :
    (∀ (H : BridgeHandlers) (t : TreeModel) (fields pfields : List (String × JsValue)),
      H.set_node_property = handle_set_property (some t) →
      JsValue.getField fields "method" = some (.str "set_node_property") →
      JsValue.getField fields "params" = some (.obj pfields) →
      getStr pfields "node_path" "" ≠ "" →
      getStr pfields "property" "" ≠ "" →
      getStr pfields "node_path" "" ≠ "/root" →
      t.hasNode (trimLead (getStr pfields "node_path" "") "/root") = false →
        handle_message (registerHandlers H) (.ok (.obj fields)) =
          .reply (.result (gdStr (JsValue.getD fields "id" (.str "0")))
            (errDict ("Node not found: " ++ getStr pfields "node_path" ""))) ∧
        ResponseFrame.isErrorShape
          (.result (gdStr (JsValue.getD fields "id" (.str "0")))
            (errDict ("Node not found: " ++ getStr pfields "node_path" ""))) = false) ∧
    (∀ (handlers : String → Option (JsValue → GVal)) (m : Except String JsValue)
        (ms : List (Except String JsValue)),
      processFrames handlers (m :: ms) = handle_message handlers m :: processFrames handlers ms) := by
  constructor
  · intro H t fields pfields hset hm hp hnp hpr hroot hnode
    constructor
    · have hres : handle_set_property (some t) (JsValue.getD fields "params" (.obj [])) =
          errDict ("Node not found: " ++ getStr pfields "node_path" "") := by
        simp only [JsValue.getD, hp, Option.getD]
        simp [handle_set_property, hnp, hpr, hroot, hnode]
      simp [handle_message, JsValue.getD, hm, registerHandlers, hset]
      simp only [JsValue.getD, hp, Option.getD] at hres ⊢
      rw [hres]
      simp [respondWith, errDict, GVal.getField]
    · rfl
  · intro handlers m ms
    simp [processFrames]

/-- Witness for the amended C7 at the concrete missing-node call. -/
theorem dispatcher_handler_error_amended_witness :
    JsValue.getField [("id", .str "7"), ("method", .str "set_node_property"),
        ("params", .obj [("node_path", .str "/root/Missing"), ("property", .str "visible")])]
      "method" = some (.str "set_node_property") ∧
    handle_message (registerHandlers
        ⟨handle_ping, screenshot_handle, fun _ => .null, fun _ => .null, fun _ => .null,
         fun _ => .null, handle_set_property (some ⟨fun _ => false⟩), fun _ => .null,
         fun _ => .null, fun _ => .null⟩)
      (.ok (.obj [("id", .str "7"), ("method", .str "set_node_property"),
        ("params", .obj [("node_path", .str "/root/Missing"),
          ("property", .str "visible")])])) =
      .reply (.result "7" (errDict "Node not found: /root/Missing")) :=
  ⟨rfl,
   ((dispatcher_handler_error_amended.1
      ⟨handle_ping, screenshot_handle, fun _ => .null, fun _ => .null, fun _ => .null,
       fun _ => .null, handle_set_property (some ⟨fun _ => false⟩), fun _ => .null,
       fun _ => .null, fun _ => .null⟩
      ⟨fun _ => false⟩
      [("id", .str "7"), ("method", .str "set_node_property"),
        ("params", .obj [("node_path", .str "/root/Missing"), ("property", .str "visible")])]
      [("node_path", .str "/root/Missing"), ("property", .str "visible")]
      rfl rfl rfl (by decide) (by decide) (by decide) rfl).1)⟩

/-! ## Auto-detection theorems -/

/-- Claim C8: the auto-detection helper promotes exactly the plain mappings
with numeric x and y, no z and no discriminator, rebuilding them as a tagged
Vector2; every other value is returned unchanged; and decode never promotes —
an untagged mapping always decodes to a plain mapping. -/
theorem autoDetectVector2_characterization :
    (∀ (fields : List (String × JsValue)) (x y : Rat),
      JsValue.getField fields "x" = some (.num x) →
      JsValue.getField fields "y" = some (.num y) →
      JsValue.getField fields "z" = none →
      JsValue.getField fields "_type" = none →
        looksLikeVector2 (.obj fields) = true ∧
        autoDetectVector2 (.obj fields) =
          .obj [("_type", .str "Vector2"), ("x", .num x), ("y", .num y)]) ∧
    (∀ v : JsValue, looksLikeVector2 v = false → autoDetectVector2 v = v) ∧
    (∀ fields : List (String × JsValue),
      looksLikeVector2 (.obj fields) = true ↔
        ((∃ x : Rat, JsValue.getField fields "x" = some (.num x)) ∧
         (∃ y : Rat, JsValue.getField fields "y" = some (.num y)) ∧
         JsValue.getField fields "z" = none ∧
         JsValue.getField fields "_type" = none)) ∧
    (∀ v : JsValue, (∀ fields, v ≠ .obj fields) → looksLikeVector2 v = false) ∧
    (∀ (env : String → Bool) (fields : List (String × JsValue)),
      JsValue.getField fields "_type" = none →
        convert_typed_value env (.obj fields) = .vdict (convertFields env fields)) := by
  refine ⟨?_, ?_, ?_, ?_, ?_⟩
  · intro fields x y hx hy hz ht
    have hl : looksLikeVector2 (.obj fields) = true := by
      simp [looksLikeVector2, hx, hy, hz, ht]
    exact ⟨hl, by simp [autoDetectVector2, hl, JsValue.getD, hx, hy]⟩
  · intro v h
    simp [autoDetectVector2, h]
  · intro fields
    constructor
    · intro h
      simp only [looksLikeVector2, Bool.and_eq_true] at h
      obtain ⟨⟨⟨hx, hy⟩, hz⟩, ht⟩ := h
      refine ⟨?_, ?_, by simpa using hz, by simpa using ht⟩
      · rcases hgx : JsValue.getField fields "x" with _ | vx <;> rw [hgx] at hx
        · simp at hx
        · cases vx <;> simp at hx
          exact ⟨_, rfl⟩
      · rcases hgy : JsValue.getField fields "y" with _ | vy <;> rw [hgy] at hy
        · simp at hy
        · cases vy <;> simp at hy
          exact ⟨_, rfl⟩
    · rintro ⟨⟨x, hx⟩, ⟨y, hy⟩, hz, ht⟩
      simp [looksLikeVector2, hx, hy, hz, ht]
  · intro v h
    cases v with
    | obj fields => exact absurd rfl (h fields)
    | null => rfl
    | bool b => rfl
    | num q => rfl
    | str s => rfl
    | arr xs => rfl
  · intro env fields ht
    simp [convert_typed_value, ht]

/-- Witness for C8: a concrete plain x/y mapping is promoted, and a concrete
untagged mapping decodes to a plain dictionary. -/
theorem autoDetectVector2_characterization_witness :
    JsValue.getField [("x", .num 100), ("y", .num 200)] "x" = some (.num 100) ∧
    autoDetectVector2 (.obj [("x", .num 100), ("y", .num 200)]) =
      .obj [("_type", .str "Vector2"), ("x", .num 100), ("y", .num 200)] ∧
    convert_typed_value (fun _ => false) (.obj [("x", .num 100), ("y", .num 200)]) =
      .vdict (convertFields (fun _ => false) [("x", .num 100), ("y", .num 200)]) :=
  ⟨rfl,
   (autoDetectVector2_characterization.1 [("x", .num 100), ("y", .num 200)] 100 200
     rfl rfl rfl rfl).2,
   autoDetectVector2_characterization.2.2.2.2 (fun _ => false)
     [("x", .num 100), ("y", .num 200)] rfl⟩

/-! ## Naming-normalizer theorems -/

/-- An uppercase ASCII letter lowers to a character outside `[A-Z]`. -/
theorem isAsciiUpper_asciiLower (c : Char) (h : isAsciiUpper c = true) :
    isAsciiUpper (asciiLower c) = false := by
  simp only [isAsciiUpper, Bool.and_eq_true, decide_eq_true_eq] at h
  obtain ⟨h1, h2⟩ := h
  have hv : Nat.isValidChar (c.toNat + 32) := Or.inl (by omega)
  have ht : (Char.ofNat (c.toNat + 32)).toNat = c.toNat + 32 := by
    simp only [Char.ofNat]
    rw [dif_pos hv]
    simp [Char.ofNatAux, Char.toNat, UInt32.toNat, BitVec.toNat_ofNatLt]
  simp only [isAsciiUpper, asciiLower]
  simp only [ht]
  simp only [Bool.and_eq_false_iff, decide_eq_false_iff_not]
  right
  omega

/-- The derivation's output has no `[A-Z]` character left. -/
theorem snakeChars_no_upper (l : List Char) :
    ∀ c ∈ snakeChars l, isAsciiUpper c = false := by
  induction l with
  | nil => intro c hc; simp [snakeChars] at hc
  | cons c0 rest ih =>
      intro c hc
      by_cases h0 : isAsciiUpper c0 = true
      · simp only [snakeChars, h0, if_true] at hc
        rcases List.mem_cons.mp hc with rfl | hc'
        · decide
        · rcases List.mem_cons.mp hc' with rfl | hc''
          · exact isAsciiUpper_asciiLower c0 h0
          · exact ih c hc''
      · simp only [snakeChars, h0, if_false] at hc
        rcases List.mem_cons.mp hc with rfl | hc'
        · exact Bool.not_eq_true _ ▸ h0
        · exact ih c hc'

/-- The derivation is the identity on character lists without `[A-Z]`. -/
theorem snakeChars_id_of_no_upper (l : List Char)
    (h : ∀ c ∈ l, isAsciiUpper c = false) : snakeChars l = l := by
  induction l with
  | nil => rfl
  | cons c0 rest ih =>
      have h0 : isAsciiUpper c0 = false := h c0 (List.mem_cons_self c0 rest)
      simp only [snakeChars, h0, if_false, Bool.false_eq_true]
      rw [ih (fun c hc => h c (List.mem_cons_of_mem c0 hc))]

/-- Claim C9: for every entry of the parameter-mapping table, the snake key
survives internal-then-wire conversion and the camel key survives
wire-then-internal conversion; and the programmatic camel-to-snake derivation
is idempotent on every key. -/
theorem naming_roundtrip :
    (∀ s c : String, (s, c) ∈ parameterMappings →
      toWireKey (toInternalKey s) = s ∧ toInternalKey (toWireKey c) = c) ∧
    (∀ k : String, deriveSnakeKey (deriveSnakeKey k) = deriveSnakeKey k) := by
  constructor
  · have hall : parameterMappings.all
        (fun p => (toWireKey (toInternalKey p.1) == p.1)
          && (toInternalKey (toWireKey p.2) == p.2)) = true := by decide
    intro s c hmem
    have h := List.all_eq_true.mp hall (s, c) hmem
    simp only [Bool.and_eq_true, beq_iff_eq] at h
    exact h
  · intro k
    show String.mk (snakeChars (String.mk (snakeChars k.data)).data) = _
    have : (String.mk (snakeChars k.data)).data = snakeChars k.data := rfl
    rw [this, snakeChars_id_of_no_upper _ (snakeChars_no_upper k.data)]
    rfl

/-- Witness for C9 at the node_path/nodePath entry. -/
theorem naming_roundtrip_witness :
    ("node_path", "nodePath") ∈ parameterMappings ∧
    toWireKey (toInternalKey "node_path") = "node_path" ∧
    toInternalKey (toWireKey "nodePath") = "nodePath" :=
  ⟨by decide,
   (naming_roundtrip.1 "node_path" "nodePath" (by decide)).1,
   (naming_roundtrip.1 "node_path" "nodePath" (by decide)).2⟩

/-! ## Codec theorems -/

/-- The untagged-dictionary walk is field-wise conversion. -/
theorem convertFields_eq_map (env : String → Bool) (fields : List (String × JsValue)) :
    convertFields env fields = fields.map (fun kv => (kv.1, convert_typed_value env kv.2)) := by
  induction fields with
  | nil => rfl
  | cons kv rest ih =>
      cases kv with
      | mk k v => simp [convertFields, ih]

/-- Counterexample to claim C6 as stated: decoding the mapping whose
discriminator value is the (unrecognized, non-string) number 5 does not return
the mapping unchanged — the source's default arm evaluates
`log_debug("Unknown _type ..." + t)`, a String-plus-float runtime error that
aborts the call, so the caller observes null rather than the mapping (the live
handler's decoder faults at its typed `var t: String` binding instead). -/
theorem decode_unknown_nonstring_counterexample :
    convert_typed_value (fun _ => false) (.obj [("_type", .num 5)]) = .vnull ∧
    Variant.ofJs (.obj [("_type", .num 5)]) = .vdict [("_type", .vnum 5)] ∧
    Variant.vnull ≠ Variant.vdict [("_type", .vnum 5)] :=
  ⟨rfl, rfl, fun h => Variant.noConfusion h⟩

/-- Claim C6 as amended: a wire mapping without the discriminator is never
treated as a TypedValue — it is rebuilt with every value recursively decoded,
so the nested x/y example passes through unchanged; a mapping whose
discriminator value is an unrecognized *string* is returned unchanged without
error; a mapping whose discriminator value is not a string is a runtime error
in the decoder, which aborts and yields null. -/
theorem decode_untagged_and_unknown :
    (∀ (env : String → Bool) (fields : List (String × JsValue)),
      JsValue.getField fields "_type" = none →
        convert_typed_value env (.obj fields) = .vdict (convertFields env fields) ∧
        convertFields env fields =
          fields.map (fun kv => (kv.1, convert_typed_value env kv.2))) ∧
    (convert_typed_value (fun _ => false)
        (.obj [("a", .obj [("x", .num 1), ("y", .num 2)])]) =
      Variant.ofJs (.obj [("a", .obj [("x", .num 1), ("y", .num 2)])])) ∧
    (∀ (env : String → Bool) (fields : List (String × JsValue)) (s : String),
      JsValue.getField fields "_type" = some (.str s) → s ∉ knownTypeTags →
        convert_typed_value env (.obj fields) = Variant.ofJs (.obj fields)) ∧
    (∀ (env : String → Bool) (fields : List (String × JsValue)) (t : JsValue),
      JsValue.getField fields "_type" = some t → (∀ s : String, t ≠ .str s) →
        convert_typed_value env (.obj fields) = .vnull) := by
  refine ⟨?_, rfl, ?_, ?_⟩
  · intro env fields ht
    exact ⟨by simp [convert_typed_value, ht], convertFields_eq_map env fields⟩
  · intro env fields s ht hs
    simp only [knownTypeTags, List.mem_cons, List.not_mem_nil, or_false, not_or] at hs
    obtain ⟨n1, n2, n3, n4, n5, n6, n7, n8, n9, n10, n11, n12, n13, n14⟩ := hs
    simp [convert_typed_value, ht, convertTagged, n1, n2, n3, n4, n5, n6, n7, n8,
      n9, n10, n11, n12, n13, n14]
  · intro env fields t ht hns
    cases t with
    | str s => exact absurd rfl (hns s)
    | null => simp [convert_typed_value, ht, convertTagged]
    | bool b => simp [convert_typed_value, ht, convertTagged]
    | num q => simp [convert_typed_value, ht, convertTagged]
    | arr xs => simp [convert_typed_value, ht, convertTagged]
    | obj f => simp [convert_typed_value, ht, convertTagged]

/-- Witness for the amended C6: the untagged rule at the nested x/y mapping,
a concrete unknown string tag "Quaternion" passing through unchanged, and the
concrete non-string tag 5 aborting to null. -/
theorem decode_untagged_and_unknown_witness :
    JsValue.getField [("a", JsValue.obj [("x", .num 1), ("y", .num 2)])] "_type" = none ∧
    convert_typed_value (fun _ => false)
        (.obj [("a", .obj [("x", .num 1), ("y", .num 2)])]) =
      .vdict (convertFields (fun _ => false) [("a", .obj [("x", .num 1), ("y", .num 2)])]) ∧
    convert_typed_value (fun _ => false)
        (.obj [("_type", .str "Quaternion"), ("w", .num 1)]) =
      Variant.ofJs (.obj [("_type", .str "Quaternion"), ("w", .num 1)]) ∧
    convert_typed_value (fun _ => false) (.obj [("_type", .num 5)]) = .vnull :=
  ⟨rfl,
   ((decode_untagged_and_unknown.1 (fun _ => false)
      [("a", .obj [("x", .num 1), ("y", .num 2)])]) rfl).1,
   decode_untagged_and_unknown.2.2.1 (fun _ => false)
     [("_type", .str "Quaternion"), ("w", .num 1)] "Quaternion" rfl (by decide),
   decode_untagged_and_unknown.2.2.2 (fun _ => false) [("_type", .num 5)] (.num 5) rfl
     (fun s h => JsValue.noConfusion h)⟩

/-- Encoding a native dictionary commutes with field lookup. -/
theorem getField_encodeFields (fs : List (String × Variant)) (k : String) :
    JsValue.getField (encodeFields fs) k = (Variant.lookupField fs k).map encode := by
  induction fs with
  | nil => rfl
  | cons kv rest ih =>
      cases kv with
      | mk k0 v0 =>
          by_cases h : k0 = k
          · simp [encodeFields, JsValue.getField, Variant.lookupField, h]
          · simp [encodeFields, JsValue.getField, Variant.lookupField, h, ih]

/-- Reading back the canonical wire form of a 2D vector recovers it. -/
theorem asVector2_vec2Wire (p d : Rat × Rat) : asVector2 (vec2Wire p) d = p := by
  simp [asVector2, vec2Wire, JsValue.getField, getNum]

/-- GDScript `int()` of a float holding an integer is that integer. -/
theorem ratTrunc_intCast (x : Int) : ratTrunc (x : Rat) = x := by
  simp [ratTrunc, Rat.num_intCast, Rat.den_intCast]

/-- Element-wise readback of canonically encoded polygon points. -/
theorem asVector2_map_vec2Wire (pts : List (Rat × Rat)) :
    List.map (fun pt => asVector2 pt (0, 0)) (pts.map vec2Wire) = pts := by
  rw [List.map_map]
  have h : ((fun pt => asVector2 pt (0, 0)) ∘ vec2Wire) = id := by
    funext p
    simp [asVector2_vec2Wire]
  rw [h, List.map_id]

mutual

/-- Decoding the canonical tagged wire form of a well-formed native value
reproduces it field for field. -/
theorem convert_encode (env : String → Bool) :
    (v : Variant) → wfVariant env v = true → convert_typed_value env (encode v) = v
  | .vnull, _ => rfl
  | .vbool b, _ => rfl
  | .vnum q, _ => rfl
  | .vstr s, _ => rfl
  | .varr xs, _ => rfl
  | .vdict fields, h => by
      simp only [wfVariant, Bool.and_eq_true, Option.isNone_iff_eq_none] at h
      obtain ⟨h1, h2⟩ := h
      simp only [encode, convert_typed_value, getField_encodeFields, h1, Option.map_none']
      rw [convertFields_encodeFields env fields h2]
  | .vec2 x y, _ => rfl
  | .vec2i x y, _ => by
      simp [encode, convert_typed_value, convertTagged, JsValue.getField, getNum,
        ratTrunc_intCast]
  | .vec3 x y z, _ => rfl
  | .vec3i x y z, _ => by
      simp [encode, convert_typed_value, convertTagged, JsValue.getField, getNum,
        ratTrunc_intCast]
  | .color r g b a, _ => rfl
  | .rect2 x y w h, _ => rfl
  | .nodePath p, _ => rfl
  | .resource p, h => by
      simp only [wfVariant, Bool.and_eq_true] at h
      obtain ⟨h1, h2⟩ := h
      have hp : p ≠ "" := by simpa using h1
      simp [encode, convert_typed_value, convertTagged, JsValue.getField, getStr]
      exact ⟨hp, h2⟩
  | .rectangleShape s, _ => by
      simp [encode, convert_typed_value, convertTagged, JsValue.getField,
        asVector2_vec2Wire]
  | .circleShape r, _ => rfl
  | .capsuleShape r h, _ => rfl
  | .worldBoundaryShape n d, _ => by
      simp [encode, convert_typed_value, convertTagged, JsValue.getField, getNum,
        asVector2_vec2Wire]
  | .segmentShape a b, _ => by
      simp [encode, convert_typed_value, convertTagged, JsValue.getField,
        asVector2_vec2Wire]
  | .convexPolygonShape pts, _ => by
      have hpoly : convert_typed_value env (encode (.convexPolygonShape pts)) =
          .convexPolygonShape (List.map (fun pt => asVector2 pt (0, 0)) (pts.map vec2Wire)) :=
        rfl
      rw [hpoly, asVector2_map_vec2Wire]

/-- Field-list version of `convert_encode`. -/
theorem convertFields_encodeFields (env : String → Bool) :
    (fs : List (String × Variant)) → wfVariantFields env fs = true →
      convertFields env (encodeFields fs) = fs
  | [], _ => rfl
  | (k, v) :: rest, h => by
      simp only [wfVariantFields, Bool.and_eq_true] at h
      simp only [encodeFields, convertFields]
      rw [convert_encode env v h.1, convertFields_encodeFields env rest h.2]

end

/-- Claim C5: decoding the tagged wire form applies each field's defined
default when the sub-field is absent — a Color with no "a" decodes to alpha 1,
a Vector2 with no "x"/"y" decodes them to 0, a Rect2 with no "w"/"h" decodes
them to 0 — nested typed sub-fields (a segment's corner points) are decoded
recursively, and decode(encode(v)) = v for every well-formed native value of
every registered kind. -/
theorem codec_roundtrip :
    (∀ (env : String → Bool) (r g b : Rat),
      convert_typed_value env (.obj [("_type", .str "Color"), ("r", .num r),
        ("g", .num g), ("b", .num b)]) = .color r g b 1) ∧
    (∀ env : String → Bool,
      convert_typed_value env (.obj [("_type", .str "Vector2")]) = .vec2 0 0) ∧
    (∀ (env : String → Bool) (x y : Rat),
      convert_typed_value env (.obj [("_type", .str "Rect2"), ("x", .num x),
        ("y", .num y)]) = .rect2 x y 0 0) ∧
    (∀ (env : String → Bool) (p q : Rat × Rat),
      convert_typed_value env (.obj [("_type", .str "SegmentShape2D"),
        ("a", vec2Wire p), ("b", vec2Wire q)]) = .segmentShape p q) ∧
    (∀ (env : String → Bool) (v : Variant), wfVariant env v = true →
      convert_typed_value env (encode v) = v) := by
  refine ⟨fun env r g b => rfl, fun env => rfl, fun env x y => rfl, ?_, ?_⟩
  · intro env p q
    simp [convert_typed_value, convertTagged, JsValue.getField, asVector2_vec2Wire]
  · intro env v h
    exact convert_encode env v h

/-- Witness for C5: a concrete well-formed dictionary holding a color and a
vector survives the round trip, and the alpha default applies concretely. -/
theorem codec_roundtrip_witness :
    wfVariant (fun _ => true)
      (.vdict [("tint", .color (1/2) (1/4) 1 1), ("pos", .vec2 3 4)]) = true ∧
    convert_typed_value (fun _ => true)
      (encode (.vdict [("tint", .color (1/2) (1/4) 1 1), ("pos", .vec2 3 4)])) =
      .vdict [("tint", .color (1/2) (1/4) 1 1), ("pos", .vec2 3 4)] ∧
    convert_typed_value (fun _ => true)
      (.obj [("_type", .str "Color"), ("r", .num 1), ("g", .num 0), ("b", .num 0)]) =
      .color 1 0 0 1 :=
  ⟨rfl,
   codec_roundtrip.2.2.2.2 (fun _ => true)
     (.vdict [("tint", .color (1/2) (1/4) 1 1), ("pos", .vec2 3 4)]) rfl,
   codec_roundtrip.1 (fun _ => true) 1 0 0⟩
